import Mathlib

/-!
# Formal model of the paper-search retrieval pipeline

A shallow embedding of the two source modules
`paper_search_mcp/academic_platforms/sci_hub.py` and
`paper_search_mcp/academic_platforms/semantic.py`, together with theorems
settling the specification claims about them.

External effects (HTTP requests, the filesystem, the curl subprocess and the
PDF-to-Markdown converter) are modelled by explicit environment records: each
call site reads its outcome from the environment, and a Python exception is
represented by the `exn` constructor of `PyResult`.  Control flow, string
construction and all pure computation are translated directly from the
source.  Strings are Lean `String`; byte contents are `List Nat`.
-/

/-- Result of running a piece of Python code: a normal value, or an
uncaught exception carrying its message. -/
inductive PyResult (α : Type) where
  | ok : α → PyResult α
  | exn : String → PyResult α
deriving DecidableEq

/-- Python whitespace for `str.strip` and the `\s` regex class
(ASCII part: space, tab, newline, carriage return, vertical tab, form feed). -/
def pyIsSpace (c : Char) : Bool :=
  c = ' ' || c = '\t' || c = '\n' || c = '\r' || c = '\x0b' || c = '\x0c'

/-- Python `str.strip()`: drop whitespace from both ends. -/
def pyStrip (s : String) : String :=
  String.mk (((s.toList.dropWhile pyIsSpace).reverse.dropWhile pyIsSpace).reverse)

/-- Python `str.startswith`, via lists of characters. -/
def pyStartsWith (s pre : String) : Bool :=
  pre.toList.isPrefixOf s.toList

/-- Python `str.endswith`, via lists of characters. -/
def pyEndsWith (s suf : String) : Bool :=
  suf.toList.isSuffixOf s.toList

/-- Python `.lower()` on a character list (ASCII). -/
def lowerChars (l : List Char) : List Char :=
  l.map Char.toLower

/-- Python `needle in hay` on character lists (substring containment):
try the pattern at every position. -/
def infixOf (pat : List Char) : List Char → Bool
  | [] => pat.isEmpty
  | l@(_ :: rest) => pat.isPrefixOf l || infixOf pat rest

/-- `os.path.join` for the shapes used by the code: the second component is a
plain file name, so the join inserts a slash unless one is already there. -/
def joinPath (a b : String) : String :=
  if a = "" then b else if pyEndsWith a "/" then a ++ b else a ++ "/" ++ b

/-- The single-quote character, used by the `location.href` pattern. -/
def qc : Char := Char.ofNat 39

/-- A Python `datetime` restricted to its date part (the code never uses the
time-of-day fields other than printing them as zeros). -/
structure PyDateTime where
  year : Nat
  month : Nat
  day : Nat
deriving DecidableEq

/-- Days in a month, as validated by the `datetime` constructor. -/
def daysInMonth (y m : Nat) : Nat :=
  if m = 2 then (if y % 4 = 0 && (y % 100 ≠ 0 || y % 400 = 0) then 29 else 28)
  else if m = 4 || m = 6 || m = 9 || m = 11 then 30
  else 31

def allDigits (l : List Char) : Bool := l.all Char.isDigit

def digitsToNat (l : List Char) : Nat :=
  l.foldl (fun a c => a * 10 + (c.toNat - 48)) 0

/-- Split a character list on the dash character. -/
def splitOnDashAux : List Char → List Char → List (List Char)
  | [], acc => [acc.reverse]
  | c :: rest, acc =>
    if c = '-' then acc.reverse :: splitOnDashAux rest []
    else splitOnDashAux rest (c :: acc)

def splitOnDash (l : List Char) : List (List Char) := splitOnDashAux l []

/-- `datetime.strptime(t, "%Y-%m-%d")`: exactly four digits for `%Y`, one or
two digits in range for `%m` and `%d`, the whole string consumed, and the
`datetime` constructor range checks (year at least 1, day fits the month). -/
def parseFullDate (l : List Char) : Option PyDateTime :=
  match splitOnDash l with
  | [ys, ms, ds] =>
    if ys.length = 4 && allDigits ys
        && 1 ≤ ms.length && ms.length ≤ 2 && allDigits ms
        && 1 ≤ ds.length && ds.length ≤ 2 && allDigits ds then
      let y := digitsToNat ys
      let m := digitsToNat ms
      let d := digitsToNat ds
      if 1 ≤ y && 1 ≤ m && m ≤ 12 && 1 ≤ d && d ≤ daysInMonth y m then
        some ⟨y, m, d⟩
      else none
    else none
  | _ => none

/-- `SemanticSearcher._parse_date`: `None` for a falsy string, else try the
full `%Y-%m-%d` format on the stripped string, else `%Y` on its first four
characters (exactly four digits), else `None`. -/
def parseDate (s : String) : Option PyDateTime :=
  if s = "" then none
  else
    let t := (pyStrip s).toList
    match parseFullDate t with
    | some d => some d
    | none =>
      let t4 := t.take 4
      if t4.length = 4 && allDigits t4 && 1 ≤ digitsToNat t4 then
        some ⟨digitsToNat t4, 1, 1⟩
      else none

def pad2 (n : Nat) : String := if n < 10 then "0" ++ toString n else toString n

def pad4 (n : Nat) : String :=
  if n < 10 then "000" ++ toString n
  else if n < 100 then "00" ++ toString n
  else if n < 1000 then "0" ++ toString n
  else toString n

/-- Python `str()` of an optional datetime as interpolated by an f-string:
`None` prints as `"None"`, a datetime with zero time prints as
`"YYYY-MM-DD 00:00:00"`. -/
def pyShowOptDate : Option PyDateTime → String
  | none => "None"
  | some d => pad4 d.year ++ "-" ++ pad2 d.month ++ "-" ++ pad2 d.day ++ " 00:00:00"

/-! ## Sci-Hub: HTML page model and `_get_pdf_url` -/

/-- A parsed HTML tag: its name and its attributes in document order. -/
structure Tag where
  name : String
  attrs : List (String × String)
deriving DecidableEq

/-- BeautifulSoup attribute lookup `tag.get(key)`. -/
def getAttr (t : Tag) (k : String) : Option String :=
  (t.attrs.find? (fun p => p.1 = k)).map (fun p => p.2)

/-- `tag.get(key)` truthiness: present and non-empty. -/
def truthyAttr (t : Tag) (k : String) : Option String :=
  match getAttr t k with
  | some v => if v = "" then none else some v
  | none => none

/-- The text and parsed tags of a Sci-Hub response page. -/
structure PageResp where
  status : Nat
  text : String
  tags : List Tag
deriving DecidableEq

/-- `SciHubFetcher._normalize_url`: protocol-relative URLs get the literal
scheme `https:` prepended, root-relative URLs get the mirror base prepended,
everything else is returned unchanged. -/
def normalize_url (base url : String) : String :=
  if pyStartsWith url "//" then "https:" ++ url
  else if pyStartsWith url "/" then base ++ url
  else url

/-- Following the words of claim C9 / spec 4.1: both protocol-relative and
root-relative URLs are resolved against the configured mirror base, so a
protocol-relative URL takes the scheme of the base. -/
def normalizeUrlClaim (base url : String) : String :=
  if pyStartsWith url "//" then
    String.mk (base.toList.takeWhile (fun c => c ≠ ':')) ++ ":" ++ url
  else if pyStartsWith url "/" then base ++ url
  else url

/-- `soup.find("embed", type="application/pdf")`. -/
def findEmbedPdf (tags : List Tag) : Option Tag :=
  tags.find? (fun t => t.name = "embed" && getAttr t "type" = some "application/pdf")

/-- Method 1 of `_get_pdf_url`: the first embed of type `application/pdf`,
when it carries a truthy `src`. -/
def embedCandidate (tags : List Tag) : Option String :=
  match findEmbedPdf tags with
  | some t => truthyAttr t "src"
  | none => none

/-- Method 2: the first iframe, when it carries a truthy `src`. -/
def iframeCandidate (tags : List Tag) : Option String :=
  match tags.find? (fun t => t.name = "iframe") with
  | some t => truthyAttr t "src"
  | none => none

/-- The pattern prefix of `re.search(r"location\.href='([^']+)'", ...)`. -/
def locHrefPat : List Char := "location.href=".toList ++ [qc]

/-- Search for the `location.href='([^']+)'` pattern: at each position try
the literal prefix, then a non-empty run of characters up to a closing
quote; on failure advance one character, as the regex engine does.  The
fuel argument is initialised to the length of the scanned list. -/
def extractLocHref : Nat → List Char → Option (List Char)
  | 0, _ => none
  | _ + 1, [] => none
  | fuel + 1, l@(_ :: rest) =>
    if locHrefPat.isPrefixOf l then
      let after := l.drop locHrefPat.length
      let seg := after.takeWhile (fun c => c ≠ qc)
      if seg ≠ [] && seg.length < after.length then some seg
      else extractLocHref fuel rest
    else extractLocHref fuel rest

/-- Method 3 of `_get_pdf_url`: scan the buttons in order; a button counts
when its `onclick` contains `pdf` case-insensitively and matches the
`location.href` pattern. -/
def buttonLoop : List Tag → Option (List Char)
  | [] => none
  | t :: rest =>
    let onclick := (getAttr t "onclick").getD ""
    if infixOf "pdf".toList (lowerChars onclick.toList) then
      match extractLocHref onclick.toList.length onclick.toList with
      | some u => some u
      | none => buttonLoop rest
    else buttonLoop rest

def buttonCandidate (tags : List Tag) : Option String :=
  (buttonLoop (tags.filter (fun t => t.name = "button"))).map String.mk

/-- Method 4: the first anchor carrying an `href` that contains `pdf`
case-insensitively or ends in `.pdf`. -/
def anchorLoop : List Tag → Option String
  | [] => none
  | t :: rest =>
    match getAttr t "href" with
    | none => anchorLoop rest
    | some href =>
      if infixOf "pdf".toList (lowerChars href.toList) || pyEndsWith href ".pdf" then
        some href
      else anchorLoop rest

def anchorCandidate (tags : List Tag) : Option String :=
  anchorLoop (tags.filter (fun t => t.name = "a"))

/-- `SciHubFetcher._get_pdf_url`: fail on a non-200 status or an
`article not found` marker, then try the four methods in order; any
exception from the page fetch is caught and yields `none`. -/
def scihubGetPdfUrl (base : String) (page : PyResult PageResp) : Option String :=
  match page with
  | .exn _ => none
  | .ok r =>
    if r.status ≠ 200 then none
    else if infixOf "article not found".toList (lowerChars r.text.toList) then none
    else
      match embedCandidate r.tags with
      | some u => some (normalize_url base u)
      | none =>
        match iframeCandidate r.tags with
        | some u => some (normalize_url base u)
        | none =>
          match buttonCandidate r.tags with
          | some u => some (normalize_url base u)
          | none =>
            match anchorCandidate r.tags with
            | some u => some (normalize_url base u)
            | none => none

/-! ## Sci-Hub: `download_pdf` and `read_paper` -/

/-- An HTTP response to the PDF download request. -/
structure HttpResponse where
  status : Nat
  contentType : String
  content : List Nat
deriving DecidableEq

/-- The first four bytes of a PDF file, `%PDF`. -/
def pdfMagic : List Nat := [37, 80, 68, 70]

/-- Environment of one `SciHubFetcher.download_pdf` run: the outcome of the
directory creation, of the Sci-Hub page fetch, of the PDF download request,
of the file write, plus the home directory and the short content hash. -/
structure SciEnv where
  mkdirResult : PyResult Unit
  page : PyResult PageResp
  dl : PyResult HttpResponse
  writeResult : PyResult Unit
  homeDir : String
  hash6 : String

/-- `SciHubFetcher._generate_filename`: the DOI with every character outside
word characters, dash and dot replaced by an underscore, plus a short
content hash. -/
def scihubFilename (doi hash6 : String) : String :=
  "scihub_" ++
    String.mk (doi.toList.map
      (fun c => if c.isAlphanum || c = '_' || c = '-' || c = '.' then c else '_')) ++
    "_" ++ hash6 ++ ".pdf"

/-- `SciHubFetcher.download_pdf`.  Returns the Python result together with
the number of HTTP requests issued.  The empty-DOI check precedes everything;
the directory creation sits outside the `try` block, so its exception
escapes; everything inside the `try` is converted to an `Error...` string. -/
def scihubDownloadPdf (base : String) (env : SciEnv) (doi : String)
    (save_path : Option String) : PyResult String × Nat :=
  if doi = "" || pyStrip doi = "" then (.ok "Error: DOI is empty", 0)
  else
    let doiS := pyStrip doi
    let outDir := match save_path with
      | some p => p
      | none => joinPath env.homeDir "paper_downloads"
    match env.mkdirResult with
    | .exn e => (.exn e, 0)
    | .ok _ =>
      match scihubGetPdfUrl base env.page with
      | none => (.ok ("Error: Could not find PDF for DOI " ++ doiS ++ " on Sci-Hub"), 1)
      | some _pdfUrl =>
        match env.dl with
        | .exn e => (.ok ("Error downloading PDF: " ++ e), 2)
        | .ok resp =>
          if resp.status ≠ 200 then
            (.ok ("Error: Download failed with status " ++ toString resp.status), 2)
          else if ¬ infixOf "pdf".toList (lowerChars resp.contentType.toList)
              && resp.content.take 4 ≠ pdfMagic then
            (.ok ("Error: Response is not a PDF (Content-Type: " ++ resp.contentType ++ ")"), 2)
          else
            match env.writeResult with
            | .exn e => (.ok ("Error downloading PDF: " ++ e), 2)
            | .ok _ => (.ok (joinPath outDir (scihubFilename doiS env.hash6)), 2)

/-- Environment of one `SciHubFetcher.read_paper` run: the download
environment plus the outcome of `pymupdf4llm.to_markdown`. -/
structure SciReadEnv where
  dl : SciEnv
  extract : PyResult String

/-- The metadata block prepended by `SciHubFetcher.read_paper`; it uses the
original (unstripped) DOI argument. -/
def scihubMetadata (doi pdf_path : String) : String :=
  "# Paper: " ++ doi ++ "\n\n" ++
  "**DOI**: https://doi.org/" ++ doi ++ "\n" ++
  "**PDF**: " ++ pdf_path ++ "\n" ++
  "**Source**: Sci-Hub\n\n" ++
  "---\n\n"

/-- `SciHubFetcher.read_paper`: download, stop on an `Error...` result, then
extract; an extraction exception is caught, blank text yields the soft
warning, otherwise the metadata block is prepended. -/
def scihubReadPaper (base : String) (env : SciReadEnv) (doi : String)
    (save_path : Option String) : PyResult String :=
  match (scihubDownloadPdf base env.dl doi save_path).1 with
  | .exn e => .exn e
  | .ok result =>
    if pyStartsWith result "Error" then .ok result
    else
      match env.extract with
      | .exn e => .ok ("Error extracting text: " ++ e)
      | .ok text =>
        if pyStrip text = "" then
          .ok ("PDF downloaded to " ++ result ++ ", but no text could be extracted.")
        else .ok (scihubMetadata doi result ++ text)

/-- `check_paper_year`: `False` for an absent date, else a strict comparison
of the published year against the cutoff. -/
def check_paper_year (published_date : Option PyDateTime) (cutoff_year : Int := 2023) : Bool :=
  match published_date with
  | none => false
  | some d => decide ((d.year : Int) < cutoff_year)

/-! ## Semantic Scholar: rate-limited request client -/

/-- What one attempt of `_make_request` runs into: a usable response (one
that passes `raise_for_status`), an HTTP 429, or a `RequestException`
(raised by `session.get` or by `raise_for_status`). -/
inductive NetOutcome (ρ : Type) where
  | ok : ρ → NetOutcome ρ
  | rateLimited : NetOutcome ρ
  | netError : NetOutcome ρ

/-- The recursion of `SemanticSearcher._make_request`, indexed by the current
`retry_count`; the fuel argument only realises the structural recursion and
is initialised to `maxRetries + 1`, which the recursion never exhausts.
Returns the final result together with the list of waits slept before the
successive retries: `2^retry_count` plus the jitter sample on a 429,
`2^retry_count` on a network error. -/
def makeRequestAux {ρ : Type} (maxRetries : Nat) (net : Nat → NetOutcome ρ)
    (jitter : Nat → ℚ) : Nat → Nat → Option ρ × List ℚ
  | 0, _ => (none, [])
  | fuel + 1, rc =>
    match net rc with
    | NetOutcome.ok r => (some r, [])
    | NetOutcome.rateLimited =>
      if rc < maxRetries then
        ((makeRequestAux maxRetries net jitter fuel (rc + 1)).1,
          ((2 : ℚ) ^ rc + jitter rc) :: (makeRequestAux maxRetries net jitter fuel (rc + 1)).2)
      else (none, [])
    | NetOutcome.netError =>
      if rc < maxRetries then
        ((makeRequestAux maxRetries net jitter fuel (rc + 1)).1,
          ((2 : ℚ) ^ rc) :: (makeRequestAux maxRetries net jitter fuel (rc + 1)).2)
      else (none, [])

/-- `SemanticSearcher._make_request` as called with `retry_count = 0`.  The
number of HTTP requests issued is the number of waits plus one. -/
def makeRequest {ρ : Type} (maxRetries : Nat) (net : Nat → NetOutcome ρ)
    (jitter : Nat → ℚ) : Option ρ × List ℚ :=
  makeRequestAux maxRetries net jitter (maxRetries + 1) 0

/-! ## Semantic Scholar: response data and `_parse_paper` -/

/-- The `openAccessPdf` object of a response: its `url` and `disclaimer`
keys, `none` meaning the key is absent. -/
structure OpenAccessPdf where
  url : Option String
  disclaimer : Option String
deriving DecidableEq

/-- One paper object of an API response.  Each field is the value of the
corresponding JSON key, `none` meaning the key is absent (JSON `null`
values are not modelled); an author entry is its `name` value. -/
structure PaperData where
  paperId : Option String
  title : Option String
  abstract : Option String
  authors : Option (List (Option String))
  url : Option String
  publicationDate : Option String
  externalIds : Option (List (String × String))
  fieldsOfStudy : Option (List String)
  openAccessPdf : Option OpenAccessPdf
  citationCount : Option Int
deriving DecidableEq

/-- Modelled from the spec: the `Paper` record of section 3 (its class lives
in `paper_search_mcp/paper.py`, which is not under `src/`): a flat metadata
record with identifier, title, ordered author names, abstract, canonical
URL, PDF URL, optional publication date, source tag, category tags, DOI and
citation count. -/
structure Paper where
  paper_id : String
  title : String
  authors : List String
  abstract : String
  url : String
  pdf_url : String
  published_date : Option PyDateTime
  source : String
  categories : List String
  doi : String
  citations : Int
deriving DecidableEq

/-- Stop characters of the URL regex `https?://[^\s,)"]+`. -/
def urlStop (c : Char) : Bool := pyIsSpace c || c = ',' || c = ')' || c = '"'

/-- Try the URL regex at the head of the list: the literal scheme (greedy
`s?`) followed by a non-empty maximal run of non-stop characters.  Returns
the match and the remaining input. -/
def matchUrlAt (l : List Char) : Option (List Char × List Char) :=
  if "https://".toList.isPrefixOf l then
    let rest := l.drop 8
    let body := rest.takeWhile (fun c => ¬ urlStop c)
    if body = [] then none else some ("https://".toList ++ body, rest.drop body.length)
  else if "http://".toList.isPrefixOf l then
    let rest := l.drop 7
    let body := rest.takeWhile (fun c => ¬ urlStop c)
    if body = [] then none else some ("http://".toList ++ body, rest.drop body.length)
  else none

/-- `re.findall` for the URL regex: scan left to right, taking non-overlapping
matches; on a failed position advance one character.  Fuel is initialised to
the length of the input and never runs out, since every step consumes at
least one character. -/
def findUrlsAux : Nat → List Char → List (List Char)
  | 0, _ => []
  | _ + 1, [] => []
  | fuel + 1, l@(_ :: rest) =>
    match matchUrlAt l with
    | some p => p.1 :: findUrlsAux fuel p.2
    | none => findUrlsAux fuel rest

def findUrls (s : String) : List (List Char) :=
  findUrlsAux s.toList.length s.toList

/-- Python `str.replace`: replace every non-overlapping occurrence of the
pattern, left to right.  Fuel is initialised to the length of the input. -/
def replaceAll (pat rep : List Char) : Nat → List Char → List Char
  | 0, _ => []
  | _ + 1, [] => []
  | fuel + 1, l@(c :: rest) =>
    if pat ≠ [] && pat.isPrefixOf l then rep ++ replaceAll pat rep fuel (l.drop pat.length)
    else c :: replaceAll pat rep fuel rest

/-- The conversion applied to a preferred URL: an arXiv abstract link
(containing `arxiv.org/abs/`) becomes its PDF form. -/
def convertPreferred (u : List Char) : String :=
  if infixOf "arxiv.org/abs/".toList u then
    String.mk (replaceAll "/abs/".toList "/pdf/".toList u.length u) ++ ".pdf"
  else String.mk u

/-- The preference loop of `_extract_pdf_url`: the first match containing a
DOI or arXiv domain is returned (converted); otherwise nothing. -/
def preferLoop : List (List Char) → Option String
  | [] => none
  | u :: rest =>
    if infixOf "doi.org".toList u || infixOf "arxiv.org".toList u then
      some (convertPreferred u)
    else preferLoop rest

/-- The disclaimer branch of `_extract_pdf_url`: skip a falsy disclaimer,
scan it for URLs, prefer a DOI/arXiv match, else fall back to the first
match, else the empty string. -/
def extractFromDisclaimer (disc : String) : String :=
  if disc = "" then ""
  else
    match findUrls disc with
    | [] => ""
    | m0 :: rest =>
      match preferLoop (m0 :: rest) with
      | some r => r
      | none => String.mk m0

/-- `SemanticSearcher._extract_pdf_url`. -/
def extractPdfUrl : Option OpenAccessPdf → String
  | none => ""
  | some o =>
    match o.url with
    | some u => if u = "" then extractFromDisclaimer (o.disclaimer.getD "") else u
    | none => extractFromDisclaimer (o.disclaimer.getD "")

/-- Association-list lookup for the `externalIds` object. -/
def lookupKey (k : String) : List (String × String) → Option String
  | [] => none
  | p :: rest => if p.1 = k then some p.2 else lookupKey k rest

/-- `SemanticSearcher._parse_paper`: `None` when the `paperId` is falsy,
else the `Paper` record with the defaults of the source. -/
def parsePaper (d : PaperData) : Option Paper :=
  let pid := d.paperId.getD ""
  if pid = "" then none
  else
    some
      { paper_id := pid
        title := d.title.getD "Untitled"
        authors := (d.authors.getD []).filterMap
          (fun nm => if nm.getD "" = "" then none else some (nm.getD ""))
        abstract := d.abstract.getD ""
        url := d.url.getD ""
        pdf_url := extractPdfUrl d.openAccessPdf
        published_date := parseDate (d.publicationDate.getD "")
        source := "semantic"
        categories := d.fieldsOfStudy.getD []
        doi := (lookupKey "DOI" (d.externalIds.getD [])).getD ""
        citations := d.citationCount.getD 0 }

/-! ## Semantic Scholar: `search` and `get_paper_details` -/

/-- The stop index of the Python slice `l[:n]` over a list of the given
length: `n` itself when non-negative, else `len + n` clamped at zero. -/
def pySliceStop (n : Int) (len : Nat) : Nat :=
  if 0 ≤ n then n.toNat else len - n.natAbs

/-- The Python slice `l[:n]`. -/
def pyTakeSlice {α : Type} (n : Int) (l : List α) : List α :=
  l.take (pySliceStop n l.length)

/-- `SemanticSearcher.search`.  The environment supplies the outcome of each
request attempt; an `ok` payload is the parsed `data` list of the JSON body
(`none` when `response.json()` raises, which is caught).  The query, year
filter and field list only shape the outgoing request, which the
environment absorbs, so they do not appear.  A failed request or an
unparsable body yields the empty list; otherwise the first `max_results`
items (Python slice) are parsed, keeping the successfully parsed ones. -/
def semanticSearch (maxRetries : Nat) (net : Nat → NetOutcome (Option (List PaperData)))
    (jitter : Nat → ℚ) (max_results : Int) : List Paper :=
  match (makeRequest maxRetries net jitter).1 with
  | none => []
  | some none => []
  | some (some results) => (pyTakeSlice max_results results).filterMap parsePaper

/-- `SemanticSearcher.get_paper_details`: one `_make_request`, JSON parsing
(`none` payload when it raises, which is caught) and `_parse_paper`.
Returns the parsed paper and the number of HTTP requests issued, which is
always the number of waits plus one. -/
def getPaperDetails (maxRetries : Nat) (net : Nat → NetOutcome (Option PaperData))
    (jitter : Nat → ℚ) : Option Paper × Nat :=
  match makeRequest maxRetries net jitter with
  | (none, w) => (none, w.length + 1)
  | (some none, w) => (none, w.length + 1)
  | (some (some d), w) => (parsePaper d, w.length + 1)

/-! ## Semantic Scholar: `_download_with_curl`, `download_pdf`, `read_paper` -/

/-- The observable outcome of the `subprocess.run` call of
`_download_with_curl`. -/
structure CurlRun where
  returncode : Int
deriving DecidableEq

/-- Environment of one `_download_with_curl` call: whether `curl` is on the
path, the outcome of `subprocess.run` (`exn` covering `TimeoutExpired` and
any other exception, all caught), whether the output file exists afterwards
and its size. -/
structure CurlEnv where
  curlOnPath : Bool
  run : PyResult CurlRun
  fileExists : Bool
  fileSize : Nat
deriving DecidableEq

/-- `SemanticSearcher._download_with_curl`.  Returns whether the download
succeeded and whether `os.remove` was invoked on the too-small file. -/
def downloadWithCurl (env : CurlEnv) : Bool × Bool :=
  if ¬ env.curlOnPath then (false, false)
  else
    match env.run with
    | .exn _ => (false, false)
    | .ok r =>
      if r.returncode = 0 && env.fileExists then
        if env.fileSize > 1000 then (true, false) else (false, true)
      else (false, false)

/-- What one attempt of the requests fallback loop of `download_pdf` runs
into: a streamable response, or a `Timeout`/`RequestException` (both
retried identically). -/
inductive DlOutcome where
  | ok : DlOutcome
  | reqError : String → DlOutcome
deriving DecidableEq

/-- The fallback loop `for attempt in range(max_retries)` of
`download_pdf`: on a good response the file is opened and written — an
`OSError` there is NOT among the caught `requests` exceptions and escapes —
on a request error the loop retries; when the loop ends, the final error
string is returned.  The first argument of the recursion is the remaining
number of attempts, the second the current attempt index; the returned
number counts the HTTP requests issued. -/
def requestsFallback (att : Nat → DlOutcome) (openRes : Nat → PyResult Unit)
    (pdf_path url : String) : Nat → Nat → PyResult String × Nat
  | 0, _ => (.ok ("Error downloading PDF: All methods failed for " ++ url), 0)
  | fuel + 1, attempt =>
    match att attempt with
    | DlOutcome.ok =>
      match openRes attempt with
      | .exn e => (.exn e, 1)
      | .ok _ => (.ok pdf_path, 1)
    | DlOutcome.reqError _ =>
      ((requestsFallback att openRes pdf_path url fuel (attempt + 1)).1,
        (requestsFallback att openRes pdf_path url fuel (attempt + 1)).2 + 1)

/-- Environment of one `SemanticSearcher.download_pdf` run. -/
structure SemDlEnv where
  net1 : Nat → NetOutcome (Option PaperData)
  jit1 : Nat → ℚ
  mkdirs : PyResult Unit
  curl : CurlEnv
  dlAttempts : Nat → DlOutcome
  openRes : Nat → PyResult Unit

/-- The file-name sanitisation of `download_pdf`: slashes and colons become
underscores. -/
def sanitizeId (s : String) : String :=
  String.mk (s.toList.map (fun c => if c = '/' || c = ':' then '_' else c))

/-- `SemanticSearcher.download_pdf`: look the paper up (a network call in
itself — there is no empty-identifier validation), fail without a PDF URL,
create the directory (outside any `try`: its exception escapes), try curl,
then the requests fallback.  Returns the Python result and the number of
HTTP requests issued through the session. -/
def semanticDownloadPdf (maxRetries : Nat) (env : SemDlEnv)
    (paper_id save_path : String) : PyResult String × Nat :=
  match getPaperDetails maxRetries env.net1 env.jit1 with
  | (none, calls) => (.ok ("Error: Could not find paper " ++ paper_id), calls)
  | (some paper, calls) =>
    if paper.pdf_url = "" then
      (.ok ("Error: No PDF URL available for paper " ++ paper_id), calls)
    else
      match env.mkdirs with
      | .exn e => (.exn e, calls)
      | .ok _ =>
        let pdf_path := joinPath save_path ("semantic_" ++ sanitizeId paper_id ++ ".pdf")
        if (downloadWithCurl env.curl).1 then (.ok pdf_path, calls)
        else
          ((requestsFallback env.dlAttempts env.openRes pdf_path paper.pdf_url maxRetries 0).1,
            calls + (requestsFallback env.dlAttempts env.openRes pdf_path paper.pdf_url maxRetries 0).2)

/-- Environment of one `SemanticSearcher.read_paper` run: the download
environment, the second `get_paper_details` fetch, and the extraction. -/
structure SemReadEnv where
  dl : SemDlEnv
  net2 : Nat → NetOutcome (Option PaperData)
  jit2 : Nat → ℚ
  extract : PyResult String

/-- The metadata block prepended by `SemanticSearcher.read_paper` when the
second metadata lookup succeeds. -/
def semMetadata (p : Paper) (pdf_path : String) : String :=
  "# " ++ p.title ++ "\n\n" ++
  "**Authors**: " ++ String.intercalate ", " p.authors ++ "\n" ++
  "**Published**: " ++ pyShowOptDate p.published_date ++ "\n" ++
  "**URL**: " ++ p.url ++ "\n" ++
  "**PDF**: " ++ pdf_path ++ "\n\n" ++
  "---\n\n"

/-- `SemanticSearcher.read_paper`: download, stop on an `Error...` result,
fetch the metadata again, extract; an extraction exception is caught, blank
text yields the soft warning; the metadata block exists only when the
second lookup returned a paper. -/
def semanticReadPaper (maxRetries : Nat) (env : SemReadEnv)
    (paper_id save_path : String) : PyResult String :=
  match (semanticDownloadPdf maxRetries env.dl paper_id save_path).1 with
  | .exn e => .exn e
  | .ok pdf_path =>
    if pyStartsWith pdf_path "Error" then .ok pdf_path
    else
      match env.extract with
      | .exn e => .ok ("Error extracting text: " ++ e)
      | .ok text =>
        if pyStrip text = "" then
          .ok ("PDF downloaded to " ++ pdf_path ++ ", but no text could be extracted.")
        else
          match (getPaperDetails maxRetries env.net2 env.jit2).1 with
          | some p => .ok (semMetadata p pdf_path ++ text)
          | none => .ok ("" ++ text)

/-! ## Concrete instances used by the counterexamples and witnesses -/

/-- A Sci-Hub page whose only tag is a PDF embed with a truthy `src`. -/
def pageEmb : PageResp :=
  ⟨200, "ok", [⟨"embed", [("type", "application/pdf"), ("src", "//dl.x/p.pdf")]⟩]⟩

/-- A Sci-Hub page with no tags at all. -/
def pageEmpty : PageResp := ⟨200, "", []⟩

/-- A button `onclick` holding a navigation URL but no occurrence of
`pdf`. -/
def onclickB6 : String :=
  String.mk ("location.href=".toList ++ [qc] ++ "/file.bin".toList ++ [qc])

/-- A Sci-Hub page whose only tag is that button. -/
def pageB6 : PageResp := ⟨200, "", [⟨"button", [("onclick", onclickB6)]⟩]⟩

/-- A download environment for a fully successful Sci-Hub run. -/
def envSciOkDl : SciEnv :=
  ⟨.ok (), .ok pageEmb, .ok ⟨200, "application/pdf", [37, 80, 68, 70]⟩, .ok (), "h", "0"⟩

/-- A Sci-Hub download environment whose directory creation raises. -/
def envC2x : SciEnv := ⟨.exn "Permission denied", .exn "x", .exn "x", .ok (), "h", "0"⟩

/-- A Semantic Scholar download environment whose metadata request fails on
every attempt. -/
def envC1x : SemDlEnv :=
  ⟨fun _ => .netError, fun _ => 0, .ok (), ⟨false, .exn "x", false, 0⟩,
   fun _ => .reqError "x", fun _ => .ok ()⟩

/-- A response paper whose identifier contains a colon. -/
def dataC4 : PaperData :=
  { paperId := some "a:b", title := some "T", abstract := none, authors := none,
    url := none, publicationDate := none, externalIds := none, fieldsOfStudy := none,
    openAccessPdf := some ⟨some "https://x/p.pdf", none⟩, citationCount := none }

/-- A Semantic Scholar download environment that finds `dataC4` and succeeds
through curl. -/
def envC4dl : SemDlEnv :=
  ⟨fun _ => .ok (some dataC4), fun _ => 0, .ok (), ⟨true, .ok ⟨0⟩, true, 2000⟩,
   fun _ => .ok, fun _ => .ok ()⟩

/-- A read environment over `envC4dl` whose extraction yields `BODY`. -/
def envC4 : SemReadEnv := ⟨envC4dl, fun _ => .ok (some dataC4), fun _ => 0, .ok "BODY"⟩

/-- The `Paper` that `_parse_paper` builds from `dataC4`. -/
def paperC4 : Paper :=
  { paper_id := "a:b", title := "T", authors := [], abstract := "", url := "",
    pdf_url := "https://x/p.pdf", published_date := none, source := "semantic",
    categories := [], doi := "", citations := 0 }

/-- A response paper with a plain identifier and nothing else. -/
def dataC10 : PaperData :=
  { paperId := some "pid1", title := none, abstract := none, authors := none,
    url := none, publicationDate := none, externalIds := none, fieldsOfStudy := none,
    openAccessPdf := none, citationCount := none }

/-! # Theorems

Helper lemmas first, then one theorem (plus counterexample and witness where
required) per claim.
-/

theorem strToList_append (a b : String) : (a ++ b).toList = a.toList ++ b.toList := by
  cases a
  cases b
  rfl

theorem isPrefixOf_self_append (l t : List Char) : l.isPrefixOf (l ++ t) = true := by
  induction l with
  | nil => simp [List.isPrefixOf]
  | cons c cs ih => simp [List.isPrefixOf, ih]

theorem infixOf_nil_pat (l : List Char) : infixOf [] l = true := by
  cases l with
  | nil => rfl
  | cons c rest => simp [infixOf, List.isPrefixOf]

theorem infixOf_of_append (pre pat suf : List Char) :
    infixOf pat (pre ++ pat ++ suf) = true := by
  induction pre with
  | nil =>
    cases pat with
    | nil => simpa using infixOf_nil_pat suf
    | cons c cs =>
      have h := isPrefixOf_self_append (c :: cs) suf
      simp only [List.nil_append, List.cons_append] at h ⊢
      simp [infixOf, h]
  | cons a pre ih =>
    simp only [List.cons_append, List.append_assoc] at ih ⊢
    simp [infixOf, ih]

theorem pyStartsWith_two_slashes {u : String} (h : pyStartsWith u "//" = true) :
    pyStartsWith u "/" = true := by
  unfold pyStartsWith at h ⊢
  cases hu : u.toList with
  | nil => rw [hu] at h; simp [List.isPrefixOf] at h
  | cons c rest =>
    rw [hu] at h
    simp only [List.isPrefixOf, Bool.and_eq_true] at h ⊢
    exact ⟨h.1, trivial⟩

theorem getPaperDetails_calls_pos (mr : Nat) (net : Nat → NetOutcome (Option PaperData))
    (jit : Nat → ℚ) : 1 ≤ (getPaperDetails mr net jit).2 := by
  unfold getPaperDetails
  rcases h : makeRequest mr net jit with ⟨ro, w⟩
  cases ro with
  | none => simp
  | some o => cases o <;> simp

theorem semanticDownloadPdf_calls_pos (mr : Nat) (env : SemDlEnv) (pid sp : String) :
    1 ≤ (semanticDownloadPdf mr env pid sp).2 := by
  have h1 := getPaperDetails_calls_pos mr env.net1 env.jit1
  unfold semanticDownloadPdf
  rcases h : getPaperDetails mr env.net1 env.jit1 with ⟨po, calls⟩
  rw [h] at h1
  simp only at h1
  cases po with
  | none => simpa using h1
  | some paper =>
    dsimp only
    split
    · simpa using h1
    · cases hm : env.mkdirs with
      | exn e => simpa using h1
      | ok u =>
        dsimp only
        split
        · simpa using h1
        · simp only
          omega

theorem requestsFallback_ok (att : Nat → DlOutcome) (op : Nat → PyResult Unit)
    (p u : String) (hop : ∀ i, op i = PyResult.ok ()) :
    ∀ fuel a, ∃ s, (requestsFallback att op p u fuel a).1 = PyResult.ok s := by
  intro fuel
  induction fuel with
  | zero => intro a; exact ⟨_, rfl⟩
  | succ fuel ih =>
    intro a
    cases h : att a with
    | ok =>
      refine ⟨p, ?_⟩
      simp [requestsFallback, h, hop a]
    | reqError e =>
      obtain ⟨s, hs⟩ := ih (a + 1)
      refine ⟨s, ?_⟩
      simp [requestsFallback, h, hs]

theorem scihubDownloadPdf_no_exn (base : String) (env : SciEnv) (doi : String)
    (sp : Option String) (hmk : env.mkdirResult = PyResult.ok ()) :
    ∃ s, (scihubDownloadPdf base env doi sp).1 = PyResult.ok s := by
  unfold scihubDownloadPdf
  split
  · exact ⟨_, rfl⟩
  · rw [hmk]
    dsimp only
    cases hg : scihubGetPdfUrl base env.page with
    | none => exact ⟨_, rfl⟩
    | some u =>
      cases hd : env.dl with
      | exn e => exact ⟨_, rfl⟩
      | ok resp =>
        dsimp only
        split
        · exact ⟨_, rfl⟩
        · split
          · exact ⟨_, rfl⟩
          · cases hw : env.writeResult with
            | exn e => exact ⟨_, rfl⟩
            | ok u2 => exact ⟨_, rfl⟩

theorem scihubReadPaper_no_exn (base : String) (env : SciReadEnv) (doi : String)
    (sp : Option String) (hmk : env.dl.mkdirResult = PyResult.ok ()) :
    ∃ s, scihubReadPaper base env doi sp = PyResult.ok s := by
  obtain ⟨s, hs⟩ := scihubDownloadPdf_no_exn base env.dl doi sp hmk
  unfold scihubReadPaper
  rw [hs]
  dsimp only
  split
  · exact ⟨_, rfl⟩
  · cases hx : env.extract with
    | exn e => exact ⟨_, rfl⟩
    | ok t =>
      dsimp only
      split
      · exact ⟨_, rfl⟩
      · exact ⟨_, rfl⟩

theorem semanticDownloadPdf_no_exn (mr : Nat) (env : SemDlEnv) (pid sp : String)
    (hmk : env.mkdirs = PyResult.ok ()) (hop : ∀ i, env.openRes i = PyResult.ok ()) :
    ∃ s, (semanticDownloadPdf mr env pid sp).1 = PyResult.ok s := by
  unfold semanticDownloadPdf
  rcases h : getPaperDetails mr env.net1 env.jit1 with ⟨po, calls⟩
  cases po with
  | none => exact ⟨_, rfl⟩
  | some paper =>
    dsimp only
    split
    · exact ⟨_, rfl⟩
    · rw [hmk]
      dsimp only
      split
      · exact ⟨_, rfl⟩
      · obtain ⟨s, hs⟩ := requestsFallback_ok env.dlAttempts env.openRes
          (joinPath sp ("semantic_" ++ sanitizeId pid ++ ".pdf")) paper.pdf_url hop mr 0
        exact ⟨s, hs⟩

theorem semanticReadPaper_no_exn (mr : Nat) (env : SemReadEnv) (pid sp : String)
    (hmk : env.dl.mkdirs = PyResult.ok ())
    (hop : ∀ i, env.dl.openRes i = PyResult.ok ()) :
    ∃ s, semanticReadPaper mr env pid sp = PyResult.ok s := by
  obtain ⟨s, hs⟩ := semanticDownloadPdf_no_exn mr env.dl pid sp hmk hop
  unfold semanticReadPaper
  rw [hs]
  dsimp only
  split
  · exact ⟨_, rfl⟩
  · cases hx : env.extract with
    | exn e => exact ⟨_, rfl⟩
    | ok t =>
      dsimp only
      split
      · exact ⟨_, rfl⟩
      · cases hp : (getPaperDetails mr env.net2 env.jit2).1 with
        | some p => exact ⟨_, rfl⟩
        | none => exact ⟨_, rfl⟩

/-- C1, counterexample: calling `SemanticSearcher.download_pdf` with the
empty identifier issues one HTTP request (the metadata lookup) and returns
the not-found error, not an input-validation error — the claim's assertion
that both fetchers validate the identifier and issue no network call is
false for the Semantic Scholar fetcher. -/
theorem claim_C1_counterexample :
    (semanticDownloadPdf 0 envC1x "" "downloads").2 = 1 ∧
    (semanticDownloadPdf 0 envC1x "" "downloads").1 =
      PyResult.ok "Error: Could not find paper " :=
  ⟨rfl, rfl⟩

/-- C1, amended: `SciHubFetcher.download_pdf` returns the input-validation
error immediately with no network call for every empty or whitespace-only
DOI; `SemanticSearcher.download_pdf` performs no such validation and issues
at least one network request for every identifier. -/
theorem claim_C1_amended :
    (∀ (base : String) (env : SciEnv) (doi : String) (sp : Option String),
        pyStrip doi = "" →
        scihubDownloadPdf base env doi sp = (PyResult.ok "Error: DOI is empty", 0)) ∧
    (∀ (mr : Nat) (env : SemDlEnv) (pid sp : String),
        1 ≤ (semanticDownloadPdf mr env pid sp).2) := by
  constructor
  · intro base env doi sp h
    unfold scihubDownloadPdf
    rw [if_pos]
    simp [h]
  · intro mr env pid sp
    exact semanticDownloadPdf_calls_pos mr env pid sp

/-- C1, witness for the amended theorem at concrete inputs. -/
theorem claim_C1_witness :
    scihubDownloadPdf "https://sci-hub.se" envSciOkDl "   " (some "/d") =
      (PyResult.ok "Error: DOI is empty", 0) ∧
    1 ≤ (semanticDownloadPdf 0 envC1x "x" "downloads").2 :=
  ⟨claim_C1_amended.1 "https://sci-hub.se" envSciOkDl "   " (some "/d") (by decide),
   claim_C1_amended.2 0 envC1x "x" "downloads"⟩

/-- C2, counterexample: an exception raised while creating the output
directory (which sits outside the `try` block of
`SciHubFetcher.download_pdf`) escapes the public API instead of being
converted to an error string — the claim that no exception crosses the
public boundary is false. -/
theorem claim_C2_counterexample :
    (scihubDownloadPdf "https://sci-hub.se" envC2x "10.1038/nature12373"
      (some "/data")).1 = PyResult.exn "Permission denied" :=
  rfl

/-- C2, amended: every public operation returns a string result, with
network-, parsing- and extraction-stage exceptions caught and converted to
`Error...` strings, provided the directory creation (both fetchers) and the
file open/write of the requests fallback (Semantic Scholar) do not raise;
exceptions from those two spots escape the public boundary.  The last two
conjuncts exhibit the conversion: an exception in the Sci-Hub page fetch is
caught into a `None` URL, which surfaces as the not-found error string. -/
theorem claim_C2_amended :
    (∀ (base : String) (env : SciEnv) (doi : String) (sp : Option String),
        env.mkdirResult = PyResult.ok () →
        ∃ s, (scihubDownloadPdf base env doi sp).1 = PyResult.ok s) ∧
    (∀ (base : String) (env : SciReadEnv) (doi : String) (sp : Option String),
        env.dl.mkdirResult = PyResult.ok () →
        ∃ s, scihubReadPaper base env doi sp = PyResult.ok s) ∧
    (∀ (mr : Nat) (env : SemDlEnv) (pid sp : String),
        env.mkdirs = PyResult.ok () → (∀ i, env.openRes i = PyResult.ok ()) →
        ∃ s, (semanticDownloadPdf mr env pid sp).1 = PyResult.ok s) ∧
    (∀ (mr : Nat) (env : SemReadEnv) (pid sp : String),
        env.dl.mkdirs = PyResult.ok () → (∀ i, env.dl.openRes i = PyResult.ok ()) →
        ∃ s, semanticReadPaper mr env pid sp = PyResult.ok s) ∧
    (∀ (base e : String), scihubGetPdfUrl base (PyResult.exn e) = none) ∧
    (∀ (base : String) (env : SciEnv) (doi : String) (sp : Option String),
        pyStrip doi ≠ "" → env.mkdirResult = PyResult.ok () →
        scihubGetPdfUrl base env.page = none →
        (scihubDownloadPdf base env doi sp).1 =
          PyResult.ok ("Error: Could not find PDF for DOI " ++ pyStrip doi ++ " on Sci-Hub")) := by
  refine ⟨scihubDownloadPdf_no_exn, scihubReadPaper_no_exn,
    semanticDownloadPdf_no_exn, semanticReadPaper_no_exn, fun base e => rfl, ?_⟩
  intro base env doi sp h hmk hurl
  have hd : doi ≠ "" := fun he => h (by rw [he]; rfl)
  unfold scihubDownloadPdf
  rw [if_neg (by simp [hd, h]), hmk]
  dsimp only
  rw [hurl]

/-- C2, witness for the amended theorem at concrete environments. -/
theorem claim_C2_witness :
    (∃ s, (scihubDownloadPdf "https://sci-hub.se" envSciOkDl "10.1/x" (some "/d")).1 =
      PyResult.ok s) ∧
    (∃ s, semanticReadPaper 0 envC4 "a:b" "d" = PyResult.ok s) ∧
    (scihubDownloadPdf "https://sci-hub.se"
        (⟨PyResult.ok (), PyResult.exn "boom", PyResult.exn "x", PyResult.ok (), "h", "0"⟩ : SciEnv)
        "10.1/x" (some "/d")).1 =
      PyResult.ok "Error: Could not find PDF for DOI 10.1/x on Sci-Hub" :=
  ⟨claim_C2_amended.1 "https://sci-hub.se" envSciOkDl "10.1/x" (some "/d") rfl,
   claim_C2_amended.2.2.2.1 0 envC4 "a:b" "d" rfl (fun i => rfl),
   claim_C2_amended.2.2.2.2.2 "https://sci-hub.se"
     (⟨PyResult.ok (), PyResult.exn "boom", PyResult.exn "x", PyResult.ok (), "h", "0"⟩ : SciEnv)
     "10.1/x" (some "/d") (by decide) rfl rfl⟩

theorem makeRequestAux_all_rl {ρ : Type} (mr : Nat) (net : Nat → NetOutcome ρ)
    (jit : Nat → ℚ) (hnet : ∀ i, net i = NetOutcome.rateLimited) :
    ∀ fuel rc, mr - rc < fuel →
      makeRequestAux mr net jit fuel rc =
        (none, (List.range (mr - rc)).map (fun i => (2 : ℚ) ^ (rc + i) + jit (rc + i))) := by
  intro fuel
  induction fuel with
  | zero => intro rc h; omega
  | succ fuel ih =>
    intro rc h
    rw [makeRequestAux, hnet rc]
    by_cases hrc : rc < mr
    · rw [if_pos hrc, ih (rc + 1) (by omega)]
      have hr : mr - rc = (mr - (rc + 1)) + 1 := by omega
      rw [hr, List.range_succ_eq_map, List.map_cons, List.map_map]
      have hfun : ((fun i => (2 : ℚ) ^ (rc + i) + jit (rc + i)) ∘ Nat.succ) =
          (fun i => (2 : ℚ) ^ (rc + 1 + i) + jit (rc + 1 + i)) := by
        funext i
        have : rc + Nat.succ i = rc + 1 + i := by omega
        simp [Function.comp, this]
      simp [hfun]
    · rw [if_neg hrc]
      have h0 : mr - rc = 0 := by omega
      simp [h0]

theorem waits_chain (jit : Nat → ℚ) (hj : ∀ i, 0 ≤ jit i ∧ jit i < 1) (n : Nat) :
    List.Chain' (fun a b => a < b)
      ((List.range n).map (fun i => (2 : ℚ) ^ i + jit i)) := by
  rw [List.chain'_map]
  cases n with
  | zero => simp
  | succ k =>
    rw [List.chain'_range_succ]
    intro m hm
    simp only [Nat.succ_eq_add_one]
    have h1 := (hj m).2
    have h2 := (hj (m + 1)).1
    have h3 : (1 : ℚ) ≤ 2 ^ m := by
      calc (1 : ℚ) = 1 ^ m := (one_pow m).symm
        _ ≤ 2 ^ m := pow_le_pow_left₀ (by norm_num) (by norm_num) m
    have h4 : (2 : ℚ) ^ (m + 1) = 2 ^ m + 2 ^ m := by ring
    linarith

/-- C3: when every attempt is answered with HTTP 429 and every jitter sample
lies in `[0,1)`, `_make_request` retries exactly `max_retries` times, the
waits before the successive retries (`2^retry_count` plus jitter) are
strictly increasing, and the call returns no response instead of raising. -/
theorem claim_C3_theorem {ρ : Type} (mr : Nat) (net : Nat → NetOutcome ρ) (jit : Nat → ℚ)
    (hnet : ∀ i, net i = NetOutcome.rateLimited) (hj : ∀ i, 0 ≤ jit i ∧ jit i < 1) :
    (makeRequest mr net jit).1 = none ∧
    (makeRequest mr net jit).2.length = mr ∧
    List.Chain' (fun a b => a < b) (makeRequest mr net jit).2 := by
  have h := makeRequestAux_all_rl mr net jit hnet (mr + 1) 0 (by omega)
  unfold makeRequest
  rw [h]
  have hfun : (fun i => (2 : ℚ) ^ (0 + i) + jit (0 + i)) =
      (fun i => (2 : ℚ) ^ i + jit i) := by
    funext i
    simp
  rw [Nat.sub_zero, hfun]
  exact ⟨rfl, by simp, waits_chain jit hj mr⟩

/-- C3, witness: three retries under constant 429 with jitter one half. -/
theorem claim_C3_witness :
    (makeRequest 3 (fun _ => (NetOutcome.rateLimited : NetOutcome Unit)) (fun _ => (1 : ℚ) / 2)).1 = none ∧
    (makeRequest 3 (fun _ => (NetOutcome.rateLimited : NetOutcome Unit)) (fun _ => (1 : ℚ) / 2)).2.length = 3 ∧
    List.Chain' (fun a b => a < b)
      (makeRequest 3 (fun _ => (NetOutcome.rateLimited : NetOutcome Unit)) (fun _ => (1 : ℚ) / 2)).2 :=
  claim_C3_theorem 3 (fun _ => NetOutcome.rateLimited) (fun _ => (1 : ℚ) / 2)
    (fun _ => rfl) (fun _ => ⟨by norm_num, by norm_num⟩)

/-- C5: in `_download_with_curl`, a successful curl exit with an existing
file smaller than 1KB (1000 bytes, the threshold of the source) is treated
as a failure and the file is removed; and the attempt succeeds only when
the file exceeds 1000 bytes. -/
theorem claim_C5_theorem :
    (∀ (env : CurlEnv) (r : CurlRun), env.curlOnPath = true → env.run = PyResult.ok r →
        r.returncode = 0 → env.fileExists = true → env.fileSize < 1000 →
        downloadWithCurl env = (false, true)) ∧
    (∀ env : CurlEnv, (downloadWithCurl env).1 = true → 1000 < env.fileSize) := by
  constructor
  · intro env r hc hr hrc hf hs
    unfold downloadWithCurl
    rw [hc, hr]
    simp only [Bool.not_true]
    rw [if_neg (by simp)]
    rw [if_pos (by simp [hrc, hf])]
    rw [if_neg (by omega)]
  · intro env h
    unfold downloadWithCurl at h
    split at h
    · simp at h
    · split at h
      · simp at h
      · split at h
        · split at h
          · assumption
          · simp at h
        · simp at h

/-- C5, witness at concrete environments: a 500-byte file is rejected and
removed; a 1001-byte file makes the successful run exceed the threshold. -/
theorem claim_C5_witness :
    downloadWithCurl ⟨true, PyResult.ok ⟨0⟩, true, 500⟩ = (false, true) ∧
    1000 < (⟨true, PyResult.ok ⟨0⟩, true, 1001⟩ : CurlEnv).fileSize :=
  ⟨claim_C5_theorem.1 ⟨true, PyResult.ok ⟨0⟩, true, 500⟩ ⟨0⟩ rfl rfl rfl rfl (by decide),
   claim_C5_theorem.2 ⟨true, PyResult.ok ⟨0⟩, true, 1001⟩ (by decide)⟩

/-- C7: `check_paper_year` returns true exactly when a published date is
present and its year is strictly below the cutoff; in particular
2022 against 2023 is true, 2023 against 2023 is false, and an absent date
is false. -/
theorem claim_C7_theorem :
    (∀ (pd : Option PyDateTime) (cutoff : Int),
        (check_paper_year pd cutoff = true ↔
          ∃ d, pd = some d ∧ (d.year : Int) < cutoff)) ∧
    check_paper_year (some ⟨2022, 1, 1⟩) 2023 = true ∧
    check_paper_year (some ⟨2023, 6, 1⟩) 2023 = false ∧
    check_paper_year none 2023 = false := by
  refine ⟨fun pd cutoff => ?_, by decide, by decide, rfl⟩
  cases pd with
  | none => simp [check_paper_year]
  | some d => simp [check_paper_year]

/-- C9, counterexample: with a non-https mirror base, a protocol-relative
URL is not resolved against the base — the code hardcodes the `https`
scheme, so the result differs from resolution against the configured
mirror. -/
theorem claim_C9_counterexample :
    normalize_url "http://mirror.example" "//cdn.example/a.pdf" ≠
      normalizeUrlClaim "http://mirror.example" "//cdn.example/a.pdf" ∧
    normalize_url "http://mirror.example" "//cdn.example/a.pdf" =
      "https://cdn.example/a.pdf" :=
  ⟨by decide, by decide⟩

/-- C9, amended: a protocol-relative URL gets the fixed scheme `https:`
prepended (independent of the mirror scheme), a root-relative URL gets the
mirror base prepended, and every other URL is returned unchanged. -/
theorem claim_C9_amended (base url : String) :
    (pyStartsWith url "//" = true → normalize_url base url = "https:" ++ url) ∧
    (pyStartsWith url "//" = false → pyStartsWith url "/" = true →
        normalize_url base url = base ++ url) ∧
    (pyStartsWith url "/" = false → normalize_url base url = url) := by
  refine ⟨?_, ?_, ?_⟩
  · intro h
    unfold normalize_url
    rw [h]
    rfl
  · intro h2 h1
    unfold normalize_url
    rw [h2, h1]
    rfl
  · intro h1
    have h2 : pyStartsWith url "//" = false := by
      cases h : pyStartsWith url "//" with
      | false => rfl
      | true => rw [pyStartsWith_two_slashes h] at h1; exact absurd h1 (by simp)
    unfold normalize_url
    rw [h1, h2]
    rfl

/-- C9, witness for the amended theorem at concrete URLs. -/
theorem claim_C9_witness :
    normalize_url "https://sci-hub.se" "//x/y.pdf" = "https:" ++ "//x/y.pdf" ∧
    normalize_url "https://sci-hub.se" "/y.pdf" = "https://sci-hub.se" ++ "/y.pdf" ∧
    normalize_url "https://sci-hub.se" "https://a/y.pdf" = "https://a/y.pdf" :=
  ⟨(claim_C9_amended "https://sci-hub.se" "//x/y.pdf").1 (by decide),
   (claim_C9_amended "https://sci-hub.se" "/y.pdf").2.1 (by decide) (by decide),
   (claim_C9_amended "https://sci-hub.se" "https://a/y.pdf").2.2 (by decide)⟩

/-- C6, counterexample: a page whose only element is a button carrying a
navigation URL in its `onclick` (but no occurrence of `pdf`) resolves to
`none`, although the claim says a button whose onclick contains a
navigation URL is among the patterns searched — the code additionally
requires `pdf` to occur in the onclick. -/
theorem claim_C6_counterexample :
    scihubGetPdfUrl "https://sci-hub.se" (PyResult.ok pageB6) = none ∧
    extractLocHref onclickB6.toList.length onclickB6.toList = some "/file.bin".toList ∧
    buttonCandidate pageB6.tags = none :=
  ⟨rfl, by decide, rfl⟩

/-- C6, amended: for a 200 page without the not-found marker, `_get_pdf_url`
tries in order: the first embed of type `application/pdf` with a non-empty
`src`; else the first iframe with a non-empty `src`; else the first button
whose onclick contains `pdf` case-insensitively and matches
`location.href='...'`; else the first anchor whose href contains `pdf`
case-insensitively or ends in `.pdf`; else it returns `none` — and it never
raises (an exception in the page fetch also yields `none`, see the C2
theorem). -/
theorem claim_C6_amended (base : String) (r : PageResp)
    (h200 : r.status = 200)
    (hnf : infixOf "article not found".toList (lowerChars r.text.toList) = false) :
    (∀ u, embedCandidate r.tags = some u →
        scihubGetPdfUrl base (PyResult.ok r) = some (normalize_url base u)) ∧
    (embedCandidate r.tags = none → ∀ u, iframeCandidate r.tags = some u →
        scihubGetPdfUrl base (PyResult.ok r) = some (normalize_url base u)) ∧
    (embedCandidate r.tags = none → iframeCandidate r.tags = none →
        ∀ u, buttonCandidate r.tags = some u →
        scihubGetPdfUrl base (PyResult.ok r) = some (normalize_url base u)) ∧
    (embedCandidate r.tags = none → iframeCandidate r.tags = none →
        buttonCandidate r.tags = none → ∀ u, anchorCandidate r.tags = some u →
        scihubGetPdfUrl base (PyResult.ok r) = some (normalize_url base u)) ∧
    (embedCandidate r.tags = none → iframeCandidate r.tags = none →
        buttonCandidate r.tags = none → anchorCandidate r.tags = none →
        scihubGetPdfUrl base (PyResult.ok r) = none) := by
  unfold scihubGetPdfUrl
  dsimp only
  rw [if_neg (by omega)]
  rw [if_neg (fun hcontra => by
    have h2 : infixOf "article not found".toList (lowerChars r.text.toList) = true := hcontra
    rw [hnf] at h2
    simp at h2)]
  refine ⟨?_, ?_, ?_, ?_, ?_⟩
  · intro u h
    rw [h]
  · intro he u h
    rw [he, h]
  · intro he hi u h
    rw [he, hi, h]
  · intro he hi hb u h
    rw [he, hi, hb, h]
  · intro he hi hb ha
    rw [he, hi, hb, ha]

/-- C6, witness: the embed page resolves through the embed branch, and the
empty page resolves to `none`. -/
theorem claim_C6_witness :
    scihubGetPdfUrl "https://sci-hub.se" (PyResult.ok pageEmb) =
      some (normalize_url "https://sci-hub.se" "//dl.x/p.pdf") ∧
    scihubGetPdfUrl "https://sci-hub.se" (PyResult.ok pageEmpty) = none :=
  ⟨(claim_C6_amended "https://sci-hub.se" pageEmb rfl (by decide)).1 "//dl.x/p.pdf" rfl,
   (claim_C6_amended "https://sci-hub.se" pageEmpty rfl (by decide)).2.2.2.2 rfl rfl rfl rfl⟩

/-- C4, counterexample: for the identifier `a:b` (sanitised to `a_b` in the
file name), a fully successful `SemanticSearcher.read_paper` run returns a
metadata header that nowhere contains the original identifier — the claim
that the header contains the identifier passed to the call is false for the
Semantic Scholar fetcher. -/
theorem claim_C4_counterexample :
    semanticReadPaper 0 envC4 "a:b" "d" =
      PyResult.ok "# T\n\n**Authors**: \n**Published**: None\n**URL**: \n**PDF**: d/semantic_a_b.pdf\n\n---\n\nBODY" ∧
    infixOf "a:b".toList
      "# T\n\n**Authors**: \n**Published**: None\n**URL**: \n**PDF**: d/semantic_a_b.pdf\n\n---\n\nBODY".toList = false :=
  ⟨rfl, by decide⟩

/-- C4, amended: when the download succeeds and extraction yields non-blank
text, `read_paper` returns non-empty text prefixed with a metadata header;
the Sci-Hub header contains the original DOI, while the Semantic Scholar
header (present when the metadata re-fetch succeeds) starts with the paper
title and contains the PDF path — whose file name carries the sanitised,
not the original, identifier. -/
theorem claim_C4_amended :
    (∀ (base : String) (env : SciReadEnv) (doi : String) (sp : Option String) (p t : String),
        (scihubDownloadPdf base env.dl doi sp).1 = PyResult.ok p →
        pyStartsWith p "Error" = false →
        env.extract = PyResult.ok t → pyStrip t ≠ "" →
        scihubReadPaper base env doi sp = PyResult.ok (scihubMetadata doi p ++ t) ∧
        (∃ r, (scihubMetadata doi p ++ t).toList = ("# Paper: " ++ doi).toList ++ r) ∧
        infixOf doi.toList (scihubMetadata doi p ++ t).toList = true ∧
        (scihubMetadata doi p ++ t).toList ≠ []) ∧
    (∀ (mr : Nat) (env : SemReadEnv) (pid sp path t : String) (p : Paper),
        (semanticDownloadPdf mr env.dl pid sp).1 = PyResult.ok path →
        pyStartsWith path "Error" = false →
        env.extract = PyResult.ok t → pyStrip t ≠ "" →
        (getPaperDetails mr env.net2 env.jit2).1 = some p →
        semanticReadPaper mr env pid sp = PyResult.ok (semMetadata p path ++ t) ∧
        (∃ r, (semMetadata p path ++ t).toList = ("# " ++ p.title).toList ++ r) ∧
        infixOf path.toList (semMetadata p path ++ t).toList = true ∧
        (semMetadata p path ++ t).toList ≠ []) := by
  constructor
  · intro base env doi sp p t hdl hsw hx ht
    have hsplit : (scihubMetadata doi p ++ t).toList =
        "# Paper: ".toList ++ doi.toList ++
          ("\n\n" ++ "**DOI**: https://doi.org/" ++ doi ++ "\n" ++ "**PDF**: " ++ p ++
            "\n" ++ "**Source**: Sci-Hub\n\n" ++ "---\n\n" ++ t).toList := by
      simp [scihubMetadata, strToList_append, List.append_assoc]
    refine ⟨?_, ?_, ?_, ?_⟩
    · unfold scihubReadPaper
      rw [hdl]
      dsimp only
      rw [hsw, if_neg (by simp), hx]
      dsimp only
      rw [if_neg ht]
    · refine ⟨("\n\n" ++ "**DOI**: https://doi.org/" ++ doi ++ "\n" ++ "**PDF**: " ++ p ++
          "\n" ++ "**Source**: Sci-Hub\n\n" ++ "---\n\n" ++ t).toList, ?_⟩
      rw [hsplit]
      simp [strToList_append, List.append_assoc]
    · rw [hsplit]
      exact infixOf_of_append _ _ _
    · rw [hsplit]
      simp
  · intro mr env pid sp path t p hdl hsw hx ht hp
    have hsplit : (semMetadata p path ++ t).toList =
        ("# " ++ p.title ++ "\n\n" ++ "**Authors**: " ++ String.intercalate ", " p.authors ++
          "\n" ++ "**Published**: " ++ pyShowOptDate p.published_date ++ "\n" ++
          "**URL**: " ++ p.url ++ "\n" ++ "**PDF**: ").toList ++ path.toList ++
          ("\n\n" ++ "---\n\n" ++ t).toList := by
      simp [semMetadata, strToList_append, List.append_assoc]
    refine ⟨?_, ?_, ?_, ?_⟩
    · unfold semanticReadPaper
      rw [hdl]
      dsimp only
      rw [hsw, if_neg (by simp), hx]
      dsimp only
      rw [if_neg ht, hp]
    · refine ⟨("\n\n" ++ "**Authors**: " ++ String.intercalate ", " p.authors ++
        "\n" ++ "**Published**: " ++ pyShowOptDate p.published_date ++ "\n" ++
        "**URL**: " ++ p.url ++ "\n" ++ "**PDF**: " ++ path ++ "\n\n" ++ "---\n\n" ++ t).toList, ?_⟩
      rw [hsplit]
      simp [strToList_append, List.append_assoc]
    · rw [hsplit]
      exact infixOf_of_append _ _ _
    · rw [hsplit]
      simp

/-- C4, witness for the amended theorem at concrete successful runs of both
fetchers. -/
theorem claim_C4_witness :
    scihubReadPaper "https://sci-hub.se" ⟨envSciOkDl, PyResult.ok "TEXT"⟩ "10.1/x" (some "/d") =
      PyResult.ok (scihubMetadata "10.1/x" "/d/scihub_10.1_x_0.pdf" ++ "TEXT") ∧
    semanticReadPaper 0 envC4 "a:b" "d" =
      PyResult.ok (semMetadata paperC4 "d/semantic_a_b.pdf" ++ "BODY") :=
  ⟨(claim_C4_amended.1 "https://sci-hub.se" ⟨envSciOkDl, PyResult.ok "TEXT"⟩ "10.1/x"
      (some "/d") "/d/scihub_10.1_x_0.pdf" "TEXT" rfl (by decide) rfl (by decide)).1,
   (claim_C4_amended.2 0 envC4 "a:b" "d" "d/semantic_a_b.pdf" "BODY" paperC4
      rfl (by decide) rfl (by decide) rfl).1⟩

theorem preferLoop_eq (l : List (List Char)) :
    preferLoop l =
      (l.find? (fun u => infixOf "doi.org".toList u || infixOf "arxiv.org".toList u)).map
        convertPreferred := by
  induction l with
  | nil => rfl
  | cons u rest ih =>
    cases h : (infixOf "doi.org".toList u || infixOf "arxiv.org".toList u) with
    | true =>
      simp only [preferLoop, List.find?]
      rw [h]
      simp
    | false =>
      simp only [preferLoop, List.find?]
      rw [h]
      simp [ih]

/-- C8, counterexample: a preferred URL containing an arXiv domain and
`/abs/` — but not the exact substring `arxiv.org/abs/` — is returned
verbatim instead of being converted to PDF-link form, so the claim's
conversion condition (an arXiv link containing `/abs/`) is false as
stated. -/
theorem claim_C8_counterexample :
    extractPdfUrl (some ⟨none, some "https://arxiv.org/x/abs/y"⟩) =
      "https://arxiv.org/x/abs/y" ∧
    infixOf "/abs/".toList "https://arxiv.org/x/abs/y".toList = true ∧
    infixOf "arxiv.org".toList "https://arxiv.org/x/abs/y".toList = true ∧
    infixOf "arxiv.org/abs/".toList "https://arxiv.org/x/abs/y".toList = false :=
  ⟨rfl, by decide, by decide, by decide⟩

/-- C8, amended: `_extract_pdf_url` returns the `url` field when present and
non-empty; with no regex matches in the disclaimer it returns the empty
string; among the matches it returns the first one containing a DOI or
arXiv domain, converted to PDF-link form exactly when it contains
`arxiv.org/abs/`; with matches but no preferred one it returns the first
match. -/
theorem claim_C8_amended :
    extractPdfUrl none = "" ∧
    (∀ (o : OpenAccessPdf) (u : String), o.url = some u → u ≠ "" →
        extractPdfUrl (some o) = u) ∧
    (∀ o : OpenAccessPdf, (o.url = none ∨ o.url = some "") →
        findUrls (o.disclaimer.getD "") = [] → extractPdfUrl (some o) = "") ∧
    (∀ (o : OpenAccessPdf) (m : List Char), (o.url = none ∨ o.url = some "") →
        (findUrls (o.disclaimer.getD "")).find?
            (fun u => infixOf "doi.org".toList u || infixOf "arxiv.org".toList u) = some m →
        extractPdfUrl (some o) =
          (if infixOf "arxiv.org/abs/".toList m then
              String.mk (replaceAll "/abs/".toList "/pdf/".toList m.length m) ++ ".pdf"
            else String.mk m)) ∧
    (∀ (o : OpenAccessPdf) (m0 : List Char) (rest : List (List Char)),
        (o.url = none ∨ o.url = some "") →
        findUrls (o.disclaimer.getD "") = m0 :: rest →
        (m0 :: rest).find?
            (fun u => infixOf "doi.org".toList u || infixOf "arxiv.org".toList u) = none →
        extractPdfUrl (some o) = String.mk m0) := by
  refine ⟨rfl, ?_, ?_, ?_, ?_⟩
  · intro o u ho hu
    unfold extractPdfUrl
    dsimp only
    rw [ho]
    dsimp only
    rw [if_neg hu]
  · intro o ho hf
    have : extractFromDisclaimer (o.disclaimer.getD "") = "" := by
      unfold extractFromDisclaimer
      by_cases hd : (o.disclaimer.getD "") = ""
      · rw [if_pos hd]
      · rw [if_neg hd, hf]
    unfold extractPdfUrl
    dsimp only
    rcases ho with h | h <;> rw [h] <;> simpa using this
  · intro o m ho hfind
    have hd : (o.disclaimer.getD "") ≠ "" := by
      intro hd
      rw [hd] at hfind
      simp [findUrls, findUrlsAux] at hfind
    have : extractFromDisclaimer (o.disclaimer.getD "") =
        (if infixOf "arxiv.org/abs/".toList m then
            String.mk (replaceAll "/abs/".toList "/pdf/".toList m.length m) ++ ".pdf"
          else String.mk m) := by
      unfold extractFromDisclaimer
      rw [if_neg hd]
      cases hfu : findUrls (o.disclaimer.getD "") with
      | nil => rw [hfu] at hfind; simp at hfind
      | cons m0 rest =>
        rw [hfu] at hfind
        dsimp only
        rw [preferLoop_eq, hfind]
        rfl
    unfold extractPdfUrl
    dsimp only
    rcases ho with h | h <;> rw [h] <;> simpa using this
  · intro o m0 rest ho hfu hfind
    have hd : (o.disclaimer.getD "") ≠ "" := by
      intro hd
      rw [hd] at hfu
      simp [findUrls, findUrlsAux] at hfu
    have : extractFromDisclaimer (o.disclaimer.getD "") = String.mk m0 := by
      unfold extractFromDisclaimer
      rw [if_neg hd, hfu]
      dsimp only
      rw [preferLoop_eq, hfind]
      rfl
    unfold extractPdfUrl
    dsimp only
    rcases ho with h | h <;> rw [h] <;> simpa using this

/-- C8, witness for the amended theorem: a direct `url` field, and a
disclaimer whose preferred arXiv abstract link is converted to its PDF
form. -/
theorem claim_C8_witness :
    extractPdfUrl (some ⟨some "U", some "zzz"⟩) = "U" ∧
    extractPdfUrl (some ⟨none, some "see https://arxiv.org/abs/1234 ok"⟩) =
      "https://arxiv.org/pdf/1234.pdf" :=
  ⟨claim_C8_amended.2.1 ⟨some "U", some "zzz"⟩ "U" rfl (by decide),
   by
    have h := claim_C8_amended.2.2.2.1 ⟨none, some "see https://arxiv.org/abs/1234 ok"⟩
      "https://arxiv.org/abs/1234".toList (Or.inl rfl) (by decide)
    rw [h]
    decide⟩

theorem parsePaper_pid (d : PaperData) (p : Paper) (h : parsePaper d = some p) :
    p.paper_id ≠ "" := by
  unfold parsePaper at h
  by_cases hp : d.paperId.getD "" = ""
  · rw [if_pos hp] at h
    exact absurd h (by simp)
  · rw [if_neg hp] at h
    have he := Option.some.inj h
    rw [← he]
    exact hp

/-- C10, counterexample: with a negative `max_results` the claim's bound
fails — Python slicing makes `search` drop elements from the end instead,
and even an empty result list is not of length at most `-1`. -/
theorem claim_C10_counterexample :
    ¬ (((semanticSearch 0 (fun _ => NetOutcome.ok (some [dataC10])) (fun _ => 0)
        (-1)).length : Int) ≤ -1) := by
  decide

/-- C10, amended: for every non-negative `max_results` the result list of
`search` has at most `max_results` entries; every returned paper has a
non-empty identifier; and a failed request or an unparsable response body
yields the empty list rather than an exception. -/
theorem claim_C10_amended (mr : Nat) (net : Nat → NetOutcome (Option (List PaperData)))
    (jit : Nat → ℚ) (m : Int) :
    (0 ≤ m → ((semanticSearch mr net jit m).length : Int) ≤ m) ∧
    (∀ p ∈ semanticSearch mr net jit m, p.paper_id ≠ "") ∧
    ((makeRequest mr net jit).1 = none → semanticSearch mr net jit m = []) ∧
    ((makeRequest mr net jit).1 = some none → semanticSearch mr net jit m = []) := by
  refine ⟨?_, ?_, ?_, ?_⟩
  · intro hm
    unfold semanticSearch
    cases h : (makeRequest mr net jit).1 with
    | none => simpa using hm
    | some o =>
      cases o with
      | none => simpa using hm
      | some results =>
        dsimp only
        have h1 : ((pyTakeSlice m results).filterMap parsePaper).length ≤
            (pyTakeSlice m results).length := List.length_filterMap_le _ _
        have h2 : (pyTakeSlice m results).length ≤ m.toNat := by
          unfold pyTakeSlice pySliceStop
          rw [if_pos hm]
          simp [List.length_take_le]
        have h3 : (m.toNat : Int) = m := Int.toNat_of_nonneg hm
        omega
  · intro p hp
    unfold semanticSearch at hp
    cases h : (makeRequest mr net jit).1 with
    | none => rw [h] at hp; simp at hp
    | some o =>
      cases o with
      | none => rw [h] at hp; simp at hp
      | some results =>
        rw [h] at hp
        dsimp only at hp
        obtain ⟨d, _, hd⟩ := List.mem_filterMap.mp hp
        exact parsePaper_pid d p hd
  · intro h
    unfold semanticSearch
    rw [h]
  · intro h
    unfold semanticSearch
    rw [h]

/-- C10, witness for the amended theorem at concrete environments. -/
theorem claim_C10_witness :
    ((semanticSearch 0 (fun _ => NetOutcome.ok (some [dataC10])) (fun _ => 0)
        5).length : Int) ≤ 5 ∧
    semanticSearch 0 (fun _ => NetOutcome.netError) (fun _ => 0) 5 = [] :=
  ⟨(claim_C10_amended 0 (fun _ => NetOutcome.ok (some [dataC10])) (fun _ => 0) 5).1
      (by norm_num),
   (claim_C10_amended 0 (fun _ => NetOutcome.netError) (fun _ => 0) 5).2.2.1 rfl⟩
